import Mathlib

/-!
Verification development for the SSSOM validation UI
(`sssom_validate_ui`): a shallow embedding of the orchestration,
capture and report-classification code of `utils.py` and of the
input-truncation logic of `app.py`, together with theorems settling
the specified properties.

External libraries (`sssom.parsers`, `sssom.validators`, `sssom.writers`,
`tsvalid`, `pandas`) are modelled as an explicit record of collaborator
functions (`ExtLib`): the repository's own code only orchestrates calls
to them, captures their textual output and classifies it.
-/

namespace SSSOMValidateUI

/-- Python line-break characters recognised by `str.splitlines`. -/
def isPyLineBreak (c : Char) : Bool :=
  c = '\n' || c = '\r' || c = '\x0b' || c = '\x0c' ||
  c = '\x1c' || c = '\x1d' || c = '\x1e' || c = '\x85' ||
  c = '\u2028' || c = '\u2029'

/-- Worker for `pySplitlines`: walks the character list, accumulating the
current line (reversed) in `acc`; `"\r\n"` counts as a single break. -/
def splitlinesAux : List Char → List Char → List String
  | [], [] => []
  | [], acc => [String.mk acc.reverse]
  | '\r' :: '\n' :: rest, acc => String.mk acc.reverse :: splitlinesAux rest []
  | c :: rest, acc =>
    if isPyLineBreak c then String.mk acc.reverse :: splitlinesAux rest []
    else splitlinesAux rest (c :: acc)

/-- Embedding of Python `str.splitlines()`. -/
def pySplitlines (s : String) : List String :=
  splitlinesAux s.data []

/-- Worker for `pyStartsWith`: is the first list an initial segment of
the second? -/
def initialSegment : List Char → List Char → Bool
  | [], _ => true
  | _ :: _, [] => false
  | a :: as, b :: bs => a = b && initialSegment as bs

/-- Embedding of Python `str.startswith`. -/
def pyStartsWith (s pre : String) : Bool :=
  initialSegment pre.data s.data

/-- `SSSOMValidation._count_line_beginnings(report, recognise_string)`:
the number of lines of `report` that start with `recognise_string`. -/
def _count_line_beginnings (report recognise_string : String) : Nat :=
  ((pySplitlines report).filter (fun line => pyStartsWith line recognise_string)).length

/-- Python exceptions that can cross the modelled call boundaries. -/
inductive PyExn where
  | valueError : String → PyExn
  | libraryError : String → PyExn
deriving DecidableEq, Repr

/-- A metadata value as found in `msdf.metadata`; `truthy` mirrors
Python truthiness for the `metadata.get(...)` test. -/
inductive MetaVal where
  | strVal : String → MetaVal
  | listVal : List String → MetaVal
deriving DecidableEq, Repr

/-- Python truthiness of a metadata value. -/
def MetaVal.truthy : MetaVal → Bool
  | .strVal s => !s.isEmpty
  | .listVal l => !l.isEmpty

/-- Truthiness of `metadata.get(key)`: a missing key (`None`) is falsy,
a present value is as truthy as the value itself. -/
def pyTruthyGet (metadata : List (String × MetaVal)) (key : String) : Bool :=
  match metadata.lookup key with
  | none => false
  | some v => v.truthy

/-- `MappingSetDataFrame`: tabular body (`df`, ordered rows of fields),
prefix map (`converter`) and metadata. -/
structure MSDF where
  df : List (List String)
  converter : List (String × String)
  metadata : List (String × MetaVal)
deriving DecidableEq, Repr

/-- State of a `SSSOMValidation` object (`utils.py`, `__init__` fields). -/
structure SSSOMValidation where
  sssom_text : String
  limit_lines_displayed : Nat
  sssom_json : String
  sssom_rdf : String
  sssom_markdown : String
  msdf : Option MSDF
  sssom_validation_capture : String
  tsvalid_capture : String
  sssom_conversion_capture : String
  recognise_error_string : String
  recognise_warning_string : String
deriving DecidableEq, Repr

/-- `SSSOMValidation.__init__(sssom_text, limit_lines_displayed=5)`:
fresh captures are empty, no data frame is loaded, the severity
markers are the two literals. -/
def SSSOMValidation.init (sssom_text : String) (limit_lines_displayed : Nat) :
    SSSOMValidation :=
  { sssom_text := sssom_text
    limit_lines_displayed := limit_lines_displayed
    sssom_json := ""
    sssom_rdf := ""
    sssom_markdown := ""
    msdf := none
    sssom_validation_capture := ""
    tsvalid_capture := ""
    sssom_conversion_capture := ""
    recognise_error_string := "**ERROR**:"
    recognise_warning_string := "**WARNING**:" }

/-- `SSSOMValidation._get_report`: Python `capture.getvalue() or
"No issues detected."` — the empty string is falsy. -/
def _get_report (capture_stream : String) : String :=
  if capture_stream = "" then "No issues detected." else capture_stream

def SSSOMValidation.get_tsvalid_report (v : SSSOMValidation) : String :=
  _get_report v.tsvalid_capture

def SSSOMValidation.get_sssom_validation_report (v : SSSOMValidation) : String :=
  _get_report v.sssom_validation_capture

def SSSOMValidation.get_sssom_conversion_report (v : SSSOMValidation) : String :=
  _get_report v.sssom_conversion_capture

def SSSOMValidation.count_errors_tsvalid (v : SSSOMValidation) : Nat :=
  _count_line_beginnings v.get_tsvalid_report v.recognise_error_string

def SSSOMValidation.count_errors_sssom_validation (v : SSSOMValidation) : Nat :=
  _count_line_beginnings v.get_sssom_validation_report v.recognise_error_string

def SSSOMValidation.count_errors_sssom_conversion (v : SSSOMValidation) : Nat :=
  _count_line_beginnings v.get_sssom_conversion_report v.recognise_error_string

def SSSOMValidation.count_warnings_tsvalid (v : SSSOMValidation) : Nat :=
  _count_line_beginnings v.get_tsvalid_report v.recognise_warning_string

def SSSOMValidation.count_warnings_sssom_validation (v : SSSOMValidation) : Nat :=
  _count_line_beginnings v.get_sssom_validation_report v.recognise_warning_string

def SSSOMValidation.count_warnings_sssom_conversion (v : SSSOMValidation) : Nat :=
  _count_line_beginnings v.get_sssom_conversion_report v.recognise_warning_string

def SSSOMValidation.is_ok_tsvalid (v : SSSOMValidation) : Bool :=
  v.count_errors_tsvalid == 0

def SSSOMValidation.is_ok_sssom_validation (v : SSSOMValidation) : Bool :=
  v.count_errors_sssom_validation == 0

def SSSOMValidation.is_ok_sssom_conversion (v : SSSOMValidation) : Bool :=
  v.count_errors_sssom_conversion == 0

/-- `SSSOMValidation.is_valid`: conjunction of the three per-check oks. -/
def SSSOMValidation.is_valid (v : SSSOMValidation) : Bool :=
  v.is_ok_tsvalid && v.is_ok_sssom_validation && v.is_ok_sssom_conversion

/-- A state whose three capture buffers hold the given strings
(everything else as the object was constructed). -/
def withCaptures (v : SSSOMValidation) (tsv val conv : String) : SSSOMValidation :=
  { v with
    tsvalid_capture := tsv
    sssom_validation_capture := val
    sssom_conversion_capture := conv }

/-- Text a `logging` record contributes to a capture stream under the
formatter installed by `configure_logger`
(`"**%(levelname)s**: %(message)s\n\n"`), followed by the
`StreamHandler` line terminator `"\n"`. -/
def logRecord (levelname message : String) : String :=
  "**" ++ levelname ++ "**: " ++ message ++ "\n\n" ++ "\n"

/-- The message of the `logging.warning` call in
`SSSOMValidation._run_sssom_conversion`. -/
def extension_warning_message : String :=
  "Extension definitions are not supported in RDF output yet.\n" ++
  "This means that we could test if your code can be translated to RDF.\n" ++
  "Follow https://github.com/linkml/linkml/issues/2445 for updates."

/-- The collaborator functions of the external libraries, as the
orchestration code observes them: each call returns the text it writes
to the active capture and/or its result.
`validate_output` models `sssom.validators.validate` with
`fail_on_error=False` and `tsvalid_output` models `tsvalid.validates`
with `fail=False`: both only write diagnostics and never raise, per
their flags. `parse_sssom_table` may raise, returning the text written
before the outcome alongside it. `clean_prefix_map` narrows the prefix
map of a data frame in place (it does not touch `df` or `metadata`);
the three writers are pure renderings. -/
structure ExtLib where
  parse_sssom_table : String → String × Except PyExn MSDF
  validate_output : MSDF → String
  tsvalid_output : String → String
  clean_prefix_map : MSDF → List (String × String)
  to_json : MSDF → String
  to_rdf_turtle : MSDF → String
  to_markdown : List (List String) → String

/-- The `MappingSetDataFrame` built for display in
`_run_sssom_conversion`: `msdf.df.head(limit)` with the same converter
and metadata, then `clean_prefix_map()` applied. -/
def display_subset (lib : ExtLib) (m : MSDF) (limit : Nat) : MSDF :=
  let subset : MSDF :=
    { df := m.df.take limit, converter := m.converter, metadata := m.metadata }
  { subset with converter := lib.clean_prefix_map subset }

/-- `SSSOMValidation._run_sssom_conversion`: raises `ValueError` when no
data frame is loaded; otherwise renders the display subset as JSON and
Markdown, and either logs a WARNING (metadata has a truthy
`extension_definitions`) or renders the full data frame as Turtle.
Returns the new state (or the exception) and the text written to the
active capture. -/
def _run_sssom_conversion (lib : ExtLib) (v : SSSOMValidation) :
    Except PyExn SSSOMValidation × String :=
  match v.msdf with
  | none =>
    (Except.error
      (PyExn.valueError "No SSSOM data frame loaded, run run_sssom_validation first."),
     "")
  | some m =>
    let msdf_subset_for_display := display_subset lib m v.limit_lines_displayed
    let v1 := { v with sssom_json := lib.to_json msdf_subset_for_display }
    if pyTruthyGet m.metadata "extension_definitions" then
      let v2 := { v1 with sssom_markdown := lib.to_markdown msdf_subset_for_display.df }
      (Except.ok v2, logRecord "WARNING" extension_warning_message)
    else
      let v2 := { v1 with sssom_rdf := lib.to_rdf_turtle m }
      let v3 := { v2 with sssom_markdown := lib.to_markdown msdf_subset_for_display.df }
      (Except.ok v3, "")

/-- `SSSOMValidation._run_sssom_validation`: parses the input text
(this may raise, in which case `self.msdf` is left unassigned and the
exception propagates), then runs `validate` with `fail_on_error=False`,
which only writes diagnostics. -/
def _run_sssom_validation (lib : ExtLib) (v : SSSOMValidation) :
    Except PyExn SSSOMValidation × String :=
  let parsed := lib.parse_sssom_table v.sssom_text
  match parsed.2 with
  | Except.error e => (Except.error e, parsed.1)
  | Except.ok m => (Except.ok { v with msdf := some m }, parsed.1 ++ lib.validate_output m)

/-- `SSSOMValidation._run_tsvalid_validation`: `tsvalid.validates` with
`fail=False` only writes its report. -/
def _run_tsvalid_validation (lib : ExtLib) (v : SSSOMValidation) : String :=
  lib.tsvalid_output v.sssom_text

/-- `SSSOMValidation.run`: the three checks in sequence, each under
`run_with_capture`, which appends everything the check wrote to the
check's capture (the handler is flushed in the `finally` block) and
propagates any exception — so a raising check ends `run` early and the
remaining checks do not execute. Returns the outcome and the final
object state. -/
def SSSOMValidation.run (lib : ExtLib) (v : SSSOMValidation) :
    Except PyExn Unit × SSSOMValidation :=
  let step1 := _run_sssom_validation lib v
  match step1.1 with
  | Except.error e =>
    (Except.error e,
     { v with sssom_validation_capture := v.sssom_validation_capture ++ step1.2 })
  | Except.ok v1 =>
    let v1 := { v1 with sssom_validation_capture := v1.sssom_validation_capture ++ step1.2 }
    let v2 := { v1 with tsvalid_capture := v1.tsvalid_capture ++ _run_tsvalid_validation lib v1 }
    let step3 := _run_sssom_conversion lib v2
    match step3.1 with
    | Except.error e =>
      (Except.error e,
       { v2 with sssom_conversion_capture := v2.sssom_conversion_capture ++ step3.2 })
    | Except.ok v3 =>
      (Except.ok (),
       { v3 with sssom_conversion_capture := v3.sssom_conversion_capture ++ step3.2 })

/-- `configure_logger` as a scope: `logger.addHandler(log_handler)` on
entry; the work's outcome is an `Except` result together with the text
it routed to the handler; in the `finally` block the handler is flushed
(its pending text reaches the capture) and then removed — for normal
and raising work alike. Handlers are identified by number; the root
logger's handler list is threaded through. -/
def configure_logger (hid : Nat) (handlers : List Nat)
    (work : Except PyExn α × String) (capture : String) :
    Except PyExn α × String × List Nat :=
  let handlersIn := handlers ++ [hid]
  let flushed := capture ++ work.2
  let handlersOut := handlersIn.erase hid
  (work.1, flushed, handlersOut)

/-- `run_with_capture(capture, task_function, ...)`: stdout/stderr
redirection plus `configure_logger`, all feeding the same capture; the
work's result — normal or raised — passes through unchanged. -/
def run_with_capture (capture : String) (hid : Nat) (handlers : List Nat)
    (work : Except PyExn α × String) : Except PyExn α × String × List Nat :=
  configure_logger hid handlers work capture

/-- `limit_lines_evaluated` from `app.py`. -/
def limit_lines_evaluated : Nat := 1000

/-- The part of the `app.py` module flow around the line limit:
`truncated_text` and the `sssom_length_within_limit` flag from the
`if` block at lines 162–165, and `validated_text`, the argument the
`Validate` button handler passes to `validate_sssom` (lines 173–175) —
which is the original `sssom_text`, whatever the flag says. -/
structure AppTruncation where
  truncated_text : Option String
  sssom_length_within_limit : Bool
  validated_text : String
deriving DecidableEq, Repr

/-- The `app.py` truncation flow for a given pasted text. -/
def app_resolve_text (sssom_text : String) : AppTruncation :=
  if (pySplitlines sssom_text).length > limit_lines_evaluated then
    { truncated_text :=
        some (String.intercalate "\n" ((pySplitlines sssom_text).take limit_lines_evaluated))
      sssom_length_within_limit := false
      validated_text := sssom_text }
  else
    { truncated_text := none
      sssom_length_within_limit := true
      validated_text := sssom_text }

/-- `generate_example()` from `utils.py`, verbatim. -/
def generate_example : String :=
  "# curie_map:\n" ++
  "#   HP: http://purl.obolibrary.org/obo/HP_\n" ++
  "#   MP: http://purl.obolibrary.org/obo/MP_\n" ++
  "#   owl: http://www.w3.org/2002/07/owl#\n" ++
  "#   rdf: http://www.w3.org/1999/02/22-rdf-syntax-ns#\n" ++
  "#   rdfs: http://www.w3.org/2000/01/rdf-schemas#\n" ++
  "#   semapv: https://w3id.org/semapv/vocab/\n" ++
  "#   skos: http://www.w3.org/2004/02/skos/core#\n" ++
  "#   sssom: https://w3id.org/sssom/\n" ++
  "# license: https://creativecommons.org/publicdomain/zero/1.0/\n" ++
  "# mapping_provider: http://purl.obolibrary.org/obo/upheno.owl\n" ++
  "# mapping_set_id: https://w3id.org/sssom/mappings/27f85fe9-8a72-4e76-909b-7ba4244d9ede\n" ++
  "subject_id\tsubject_label\tpredicate_id\tobject_id\tobject_label\tmapping_justification\n" ++
  "HP:0000175\tCleft palate\tskos:exactMatch\tMP:0000111\tcleft palate\tsemapv:LexicalMatching\n" ++
  "HP:0000252\tMicrocephaly\tskos:exactMatch\tMP:0000433\tmicrocephaly\tsemapv:LexicalMatching\n" ++
  "HP:0000260\t Wide anterior fontanel\tskos:exactMatch\tMP:0000085\tlarge anterior fontanelle\tsemapv:LexicalMatching\n" ++
  "HP:0000375\tAbnormal cochlea morphology\tskos:exactMatch\tMP:0000031\tabnormal cochlea morphology\tsemapv:LexicalMatching\n" ++
  "HP:0000411\t Protruding ear\tskos:exactBatch\tMP:0000021\tprominent ears\tsemapv:LexicalMatching\n" ++
  "HP:0000822\tHypertension\tskos:exactMatch\tMP:0000231\thypertension\tsemapv:LexicalMatching"

/-- A validation object as constructed by `__init__` whose three
capture buffers ended up holding the given strings. -/
def captured (text : String) (lim : Nat) (tsv val conv : String) : SSSOMValidation :=
  withCaptures (SSSOMValidation.init text lim) tsv val conv

/-- An `ExtLib` whose parse step raises (as `parse_sssom_table` does on
input it cannot read) while the two other validators would write an
ERROR line if they ran. -/
def failParseLib : ExtLib :=
  { parse_sssom_table := fun _ => ("", Except.error (PyExn.libraryError "Unrecognized SSSOM file format"))
    validate_output := fun _ => ""
    tsvalid_output := fun _ => "**ERROR**: would have run\n"
    clean_prefix_map := fun m => m.converter
    to_json := fun _ => "{}"
    to_rdf_turtle := fun _ => ""
    to_markdown := fun _ => "" }

/-- An `ExtLib` whose renderers expose exactly which rows they were
given (each renderer serialises the full row list it receives). -/
def probeLib : ExtLib :=
  { parse_sssom_table := fun _ => ("", Except.error (PyExn.libraryError "not used"))
    validate_output := fun _ => ""
    tsvalid_output := fun _ => ""
    clean_prefix_map := fun m => m.converter
    to_json := fun m => String.intercalate "|" (m.df.map (fun r => String.intercalate "," r))
    to_rdf_turtle := fun m => String.intercalate "\n" (m.df.map (fun r => String.intercalate "\t" r))
    to_markdown := fun df => String.intercalate "\n" (df.map (fun r => String.intercalate " | " r)) }

/-- Five shared leading rows for the two six-row mapping sets below. -/
def rowsHeadFive : List (List String) :=
  [["s1", "p", "o1"], ["s2", "p", "o2"], ["s3", "p", "o3"],
   ["s4", "p", "o4"], ["s5", "p", "o5"]]

/-- A six-row mapping set. -/
def mA : MSDF :=
  { df := rowsHeadFive ++ [["s6", "p", "o6"]]
    converter := [("EX", "https://example.org/")]
    metadata := [] }

/-- A six-row mapping set agreeing with `mA` on its first five rows,
prefix map and metadata, differing only in the sixth row. -/
def mB : MSDF :=
  { df := rowsHeadFive ++ [["s6b", "p", "o6b"]]
    converter := [("EX", "https://example.org/")]
    metadata := [] }

/-- A one-row mapping set whose metadata carries a truthy
`extension_definitions` entry. -/
def mExt : MSDF :=
  { df := [["s1", "p", "o1"]]
    converter := []
    metadata := [("extension_definitions", MetaVal.listVal ["ext1"])] }

/-- A validation object that has loaded `mExt`. -/
def vExt : SSSOMValidation :=
  { SSSOMValidation.init "text" 5 with msdf := some mExt }

/-- A validation object that has loaded the six-row set `mA`. -/
def vA : SSSOMValidation :=
  { SSSOMValidation.init "tA" 5 with msdf := some mA }

/-- A validation object that has loaded the six-row set `mB`. -/
def vB : SSSOMValidation :=
  { SSSOMValidation.init "tA" 5 with msdf := some mB }

/-- The object state `_run_sssom_conversion` leaves behind on success
(unchanged state if it raised). -/
def conv_state (lib : ExtLib) (v : SSSOMValidation) : SSSOMValidation :=
  match (_run_sssom_conversion lib v).1 with
  | Except.ok w => w
  | Except.error _ => v

example : pySplitlines "a\nb" = ["a", "b"] := by decide
example : pySplitlines "" = [] := by decide
example : pySplitlines "a\r\nb\r" = ["a", "b"] := by decide
example : pySplitlines "\n\n" = ["", ""] := by decide
example : _count_line_beginnings "**ERROR**: x\nok\n**ERROR**: y" "**ERROR**:" = 2 := by
  decide

lemma beq_zero_eq_decide (n : Nat) : (n == 0) = decide (n = 0) := by
  cases n <;> rfl

/-- C1: for every captured report, `count_errors_*` is the number of
lines beginning exactly with `"**ERROR**:"`, `count_warnings_*` the
number of lines beginning exactly with `"**WARNING**:"`, and each
per-check `is_ok_*` is true iff the check's error count is zero — it
is a function of the error count alone, so warnings never affect it. -/
theorem count_and_ok_spec (text : String) (lim : Nat) (tsv val conv : String) :
    (captured text lim tsv val conv).count_errors_tsvalid =
      (pySplitlines (captured text lim tsv val conv).get_tsvalid_report).countP
        (fun l => pyStartsWith l "**ERROR**:") ∧
    (captured text lim tsv val conv).count_errors_sssom_validation =
      (pySplitlines (captured text lim tsv val conv).get_sssom_validation_report).countP
        (fun l => pyStartsWith l "**ERROR**:") ∧
    (captured text lim tsv val conv).count_errors_sssom_conversion =
      (pySplitlines (captured text lim tsv val conv).get_sssom_conversion_report).countP
        (fun l => pyStartsWith l "**ERROR**:") ∧
    (captured text lim tsv val conv).count_warnings_tsvalid =
      (pySplitlines (captured text lim tsv val conv).get_tsvalid_report).countP
        (fun l => pyStartsWith l "**WARNING**:") ∧
    (captured text lim tsv val conv).count_warnings_sssom_validation =
      (pySplitlines (captured text lim tsv val conv).get_sssom_validation_report).countP
        (fun l => pyStartsWith l "**WARNING**:") ∧
    (captured text lim tsv val conv).count_warnings_sssom_conversion =
      (pySplitlines (captured text lim tsv val conv).get_sssom_conversion_report).countP
        (fun l => pyStartsWith l "**WARNING**:") ∧
    ((captured text lim tsv val conv).is_ok_tsvalid = true ↔
      (captured text lim tsv val conv).count_errors_tsvalid = 0) ∧
    ((captured text lim tsv val conv).is_ok_sssom_validation = true ↔
      (captured text lim tsv val conv).count_errors_sssom_validation = 0) ∧
    ((captured text lim tsv val conv).is_ok_sssom_conversion = true ↔
      (captured text lim tsv val conv).count_errors_sssom_conversion = 0) ∧
    (captured text lim tsv val conv).is_ok_tsvalid =
      decide ((captured text lim tsv val conv).count_errors_tsvalid = 0) ∧
    (captured text lim tsv val conv).is_ok_sssom_validation =
      decide ((captured text lim tsv val conv).count_errors_sssom_validation = 0) ∧
    (captured text lim tsv val conv).is_ok_sssom_conversion =
      decide ((captured text lim tsv val conv).count_errors_sssom_conversion = 0) := by
  refine ⟨?_, ?_, ?_, ?_, ?_, ?_, ?_, ?_, ?_, ?_, ?_, ?_⟩ <;>
    simp [captured, withCaptures, SSSOMValidation.init,
      SSSOMValidation.count_errors_tsvalid, SSSOMValidation.count_errors_sssom_validation,
      SSSOMValidation.count_errors_sssom_conversion, SSSOMValidation.count_warnings_tsvalid,
      SSSOMValidation.count_warnings_sssom_validation,
      SSSOMValidation.count_warnings_sssom_conversion,
      SSSOMValidation.is_ok_tsvalid, SSSOMValidation.is_ok_sssom_validation,
      SSSOMValidation.is_ok_sssom_conversion,
      _count_line_beginnings, List.countP_eq_length_filter, beq_zero_eq_decide]

/-- C2: `is_valid` is exactly the conjunction of the three per-check
oks, and it is true iff all three error counts are zero — so any state
with an ERROR-marker line in some check is invalid whatever the
warning counts, and a state with none is valid. -/
theorem is_valid_spec (text : String) (lim : Nat) (tsv val conv : String) :
    (captured text lim tsv val conv).is_valid =
      ((captured text lim tsv val conv).is_ok_tsvalid &&
       (captured text lim tsv val conv).is_ok_sssom_validation &&
       (captured text lim tsv val conv).is_ok_sssom_conversion) ∧
    ((captured text lim tsv val conv).is_valid = true ↔
      _count_line_beginnings (captured text lim tsv val conv).get_tsvalid_report
        "**ERROR**:" = 0 ∧
      _count_line_beginnings (captured text lim tsv val conv).get_sssom_validation_report
        "**ERROR**:" = 0 ∧
      _count_line_beginnings (captured text lim tsv val conv).get_sssom_conversion_report
        "**ERROR**:" = 0) := by
  constructor
  · rfl
  · simp [captured, withCaptures, SSSOMValidation.init, SSSOMValidation.is_valid,
      SSSOMValidation.is_ok_tsvalid, SSSOMValidation.is_ok_sssom_validation,
      SSSOMValidation.is_ok_sssom_conversion,
      SSSOMValidation.count_errors_tsvalid, SSSOMValidation.count_errors_sssom_validation,
      SSSOMValidation.count_errors_sssom_conversion, and_assoc]

/-- C6: an empty capture stream classifies as the canonical
"No issues detected." report with `ok = true` and zero error and
warning counts, for each of the three checks. -/
theorem empty_report_classification (text : String) (lim : Nat) :
    _get_report "" = "No issues detected." ∧
    (SSSOMValidation.init text lim).get_tsvalid_report = "No issues detected." ∧
    (SSSOMValidation.init text lim).get_sssom_validation_report = "No issues detected." ∧
    (SSSOMValidation.init text lim).get_sssom_conversion_report = "No issues detected." ∧
    (SSSOMValidation.init text lim).count_errors_tsvalid = 0 ∧
    (SSSOMValidation.init text lim).count_warnings_tsvalid = 0 ∧
    (SSSOMValidation.init text lim).is_ok_tsvalid = true ∧
    (SSSOMValidation.init text lim).count_errors_sssom_validation = 0 ∧
    (SSSOMValidation.init text lim).count_warnings_sssom_validation = 0 ∧
    (SSSOMValidation.init text lim).is_ok_sssom_validation = true ∧
    (SSSOMValidation.init text lim).count_errors_sssom_conversion = 0 ∧
    (SSSOMValidation.init text lim).count_warnings_sssom_conversion = 0 ∧
    (SSSOMValidation.init text lim).is_ok_sssom_conversion = true :=
  ⟨rfl, rfl, rfl, rfl, rfl, rfl, rfl, rfl, rfl, rfl, rfl, rfl, rfl⟩

/-- C9: a freshly constructed `SSSOMValidation` — `run()` not yet
called, all captures empty, no data frame loaded — already reports
"No issues detected." for every check, zero counts throughout, and
`is_valid() = true`. -/
theorem fresh_state_valid (text : String) (lim : Nat) :
    (SSSOMValidation.init text lim).msdf = none ∧
    (SSSOMValidation.init text lim).tsvalid_capture = "" ∧
    (SSSOMValidation.init text lim).sssom_validation_capture = "" ∧
    (SSSOMValidation.init text lim).sssom_conversion_capture = "" ∧
    (SSSOMValidation.init text lim).get_tsvalid_report = "No issues detected." ∧
    (SSSOMValidation.init text lim).get_sssom_validation_report = "No issues detected." ∧
    (SSSOMValidation.init text lim).get_sssom_conversion_report = "No issues detected." ∧
    (SSSOMValidation.init text lim).count_errors_tsvalid = 0 ∧
    (SSSOMValidation.init text lim).count_errors_sssom_validation = 0 ∧
    (SSSOMValidation.init text lim).count_errors_sssom_conversion = 0 ∧
    (SSSOMValidation.init text lim).count_warnings_tsvalid = 0 ∧
    (SSSOMValidation.init text lim).count_warnings_sssom_validation = 0 ∧
    (SSSOMValidation.init text lim).count_warnings_sssom_conversion = 0 ∧
    (SSSOMValidation.init text lim).is_valid = true :=
  ⟨rfl, rfl, rfl, rfl, rfl, rfl, rfl, rfl, rfl, rfl, rfl, rfl, rfl, rfl⟩

/-- C5: `run_with_capture` installs the logging handler, and on exit —
whether the work returned normally or raised — the handler's pending
output is flushed into the capture and the handler is detached from
the root logger (its list is exactly restored when the handler was not
already attached); the work's outcome, including a raised exception,
passes through unsuppressed. -/
theorem run_with_capture_finally {α : Type} (hid : Nat) (handlers : List Nat)
    (res : Except PyExn α) (out : String) (capture : String)
    (h : hid ∉ handlers) :
    run_with_capture capture hid handlers (res, out) =
      (res, capture ++ out, handlers) := by
  unfold run_with_capture configure_logger
  have herase : (handlers ++ [hid]).erase hid = handlers := by
    rw [List.erase_append_right _ h, List.erase_cons_head, List.append_nil]
  simp [herase]

/-- Witness for C5 at a raising work item: the exception comes back
unchanged, its output is flushed into the capture, and the handler
list is restored. -/
theorem run_with_capture_finally_witness :
    run_with_capture "pre" 7 [1, 2]
        ((Except.error (PyExn.libraryError "boom") : Except PyExn Unit), "**ERROR**: x\n") =
      (Except.error (PyExn.libraryError "boom"), "pre" ++ "**ERROR**: x\n", [1, 2]) :=
  run_with_capture_finally 7 [1, 2] _ _ _ (by decide)

/-- C10: `_run_sssom_conversion` raises its `ValueError` exactly when
no data frame is loaded (`msdf` is `none`); with a data frame loaded
the guard does not fire and the conversion returns a new state. -/
theorem conversion_guard_iff (lib : ExtLib) (v : SSSOMValidation) :
    ((_run_sssom_conversion lib v).1 =
        Except.error
          (PyExn.valueError "No SSSOM data frame loaded, run run_sssom_validation first.")
      ↔ v.msdf = none) ∧
    (∀ m, v.msdf = some m → ∃ w, (_run_sssom_conversion lib v).1 = Except.ok w) := by
  cases hm : v.msdf with
  | none =>
    refine ⟨by simp [_run_sssom_conversion, hm], ?_⟩
    intro m hsome
    exact absurd hsome (by simp)
  | some m =>
    constructor
    · simp only [_run_sssom_conversion, hm]
      split <;> simp
    · intro m' _
      simp only [_run_sssom_conversion, hm]
      split
      · exact ⟨_, rfl⟩
      · exact ⟨_, rfl⟩

/-- Witness for C10: with a loaded data frame the conversion check
returns a state rather than raising the guard's `ValueError`. -/
theorem conversion_guard_iff_witness :
    ∃ w, (_run_sssom_conversion probeLib vExt).1 = Except.ok w :=
  (conversion_guard_iff probeLib vExt).2 mExt rfl

/-- C4, counterexample: a parse failure is not recorded as an ERROR
line and does not degrade to a report — `run` propagates the
exception, the schema check's report classifies with zero errors, no
data frame is produced, and the linting and conversion checks never
execute (their captures stay empty even though the linting stub would
have written an ERROR line). -/
theorem parse_failure_cex :
    (SSSOMValidation.run failParseLib (SSSOMValidation.init "no tabs here" 5)).1 =
      Except.error (PyExn.libraryError "Unrecognized SSSOM file format") ∧
    (SSSOMValidation.run failParseLib (SSSOMValidation.init "no tabs here" 5)).2.msdf = none ∧
    (SSSOMValidation.run failParseLib
        (SSSOMValidation.init "no tabs here" 5)).2.count_errors_sssom_validation = 0 ∧
    (SSSOMValidation.run failParseLib
        (SSSOMValidation.init "no tabs here" 5)).2.tsvalid_capture = "" ∧
    (SSSOMValidation.run failParseLib
        (SSSOMValidation.init "no tabs here" 5)).2.sssom_conversion_capture = "" :=
  ⟨rfl, rfl, rfl, rfl, rfl⟩

/-- C4, as amended: validation-rule failures are non-fatal (`validate`
runs with `fail_on_error=False` and only writes to the capture), but a
raising parse is not caught anywhere: the exception propagates out of
`run()` unchanged, the schema capture still receives what was written
before the raise (the handler is flushed), `msdf` keeps its prior
value, and the linting and conversion checks do not execute. -/
theorem parse_failure_propagation (lib : ExtLib) (v : SSSOMValidation)
    (e : PyExn) (out : String)
    (h : lib.parse_sssom_table v.sssom_text = (out, Except.error e)) :
    SSSOMValidation.run lib v =
      (Except.error e,
       { v with sssom_validation_capture := v.sssom_validation_capture ++ out }) := by
  simp [SSSOMValidation.run, _run_sssom_validation, h]

/-- Witness for C4's amended statement at a concrete failing parse. -/
theorem parse_failure_propagation_witness :
    SSSOMValidation.run failParseLib (SSSOMValidation.init "x" 5) =
      (Except.error (PyExn.libraryError "Unrecognized SSSOM file format"),
       { SSSOMValidation.init "x" 5 with
          sssom_validation_capture :=
            (SSSOMValidation.init "x" 5).sssom_validation_capture ++ "" }) :=
  parse_failure_propagation failParseLib (SSSOMValidation.init "x" 5) _ _ rfl

set_option maxRecDepth 10000 in
/-- C3: the `app.py` truncation block records the truncation notice for
an over-long input (`sssom_length_within_limit` becomes false), yet
the text handed to `validate_sssom` is the original input — on a
1001-line paste, the validated text still has 1001 lines, not the
claimed `limit_lines_evaluated = 1000`: `truncated_text` is computed
and then never used. -/
theorem truncation_dead_code :
    (pySplitlines (String.mk (List.replicate 1001 '\n'))).length = 1001 ∧
    limit_lines_evaluated = 1000 ∧
    (app_resolve_text (String.mk (List.replicate 1001 '\n'))).sssom_length_within_limit
      = false ∧
    (app_resolve_text (String.mk (List.replicate 1001 '\n'))).validated_text
      = String.mk (List.replicate 1001 '\n') ∧
    (pySplitlines
        (app_resolve_text (String.mk (List.replicate 1001 '\n'))).validated_text).length
      ≠ limit_lines_evaluated := by
  decide

/-- C7: with a data frame loaded, a truthy `extension_definitions`
metadata entry makes the conversion check skip the Turtle rendering
(`sssom_rdf` is not assigned) and write exactly one WARNING record —
and no ERROR — to its capture, while JSON and Markdown are still
rendered from the display subset; without such an entry the Turtle
rendering of the full set is produced and nothing is written. -/
theorem extension_definitions_branch (lib : ExtLib) (v : SSSOMValidation) (m : MSDF)
    (h : v.msdf = some m) :
    (pyTruthyGet m.metadata "extension_definitions" = true →
      _run_sssom_conversion lib v =
        (Except.ok
          { v with
              sssom_json := lib.to_json (display_subset lib m v.limit_lines_displayed)
              sssom_markdown :=
                lib.to_markdown (display_subset lib m v.limit_lines_displayed).df },
         logRecord "WARNING" extension_warning_message)) ∧
    (pyTruthyGet m.metadata "extension_definitions" = false →
      _run_sssom_conversion lib v =
        (Except.ok
          { v with
              sssom_json := lib.to_json (display_subset lib m v.limit_lines_displayed)
              sssom_rdf := lib.to_rdf_turtle m
              sssom_markdown :=
                lib.to_markdown (display_subset lib m v.limit_lines_displayed).df },
         "")) ∧
    _count_line_beginnings (logRecord "WARNING" extension_warning_message)
      "**WARNING**:" = 1 ∧
    _count_line_beginnings (logRecord "WARNING" extension_warning_message)
      "**ERROR**:" = 0 := by
  refine ⟨?_, ?_, by decide, by decide⟩
  · intro ht
    simp [_run_sssom_conversion, h, ht]
  · intro hf
    simp [_run_sssom_conversion, h, hf]

/-- Witness for C7: a metadata entry `extension_definitions` with a
non-empty value is truthy, the conversion then leaves `sssom_rdf`
untouched and logs the WARNING record. -/
theorem extension_definitions_branch_witness :
    pyTruthyGet mExt.metadata "extension_definitions" = true ∧
    _run_sssom_conversion probeLib vExt =
      (Except.ok
        { vExt with
            sssom_json := probeLib.to_json (display_subset probeLib mExt 5)
            sssom_markdown := probeLib.to_markdown (display_subset probeLib mExt 5).df },
       logRecord "WARNING" extension_warning_message) :=
  ⟨by decide, (extension_definitions_branch probeLib vExt mExt rfl).1 (by decide)⟩

/-- C8, counterexample: the conversion check does not render only the
first `limit_lines_displayed` rows — two six-row mapping sets that
agree on their first five rows, prefix map and metadata produce the
same Markdown and JSON but different Turtle output, because
`to_rdf_graph` is called on the full data frame rather than on the
display subset. -/
theorem rdf_full_set_cex :
    mA.df.take 5 = mB.df.take 5 ∧
    mA.converter = mB.converter ∧
    mA.metadata = mB.metadata ∧
    vA.limit_lines_displayed = 5 ∧
    vB.limit_lines_displayed = 5 ∧
    (conv_state probeLib vA).sssom_markdown = (conv_state probeLib vB).sssom_markdown ∧
    (conv_state probeLib vA).sssom_json = (conv_state probeLib vB).sssom_json ∧
    (conv_state probeLib vA).sssom_rdf ≠ (conv_state probeLib vB).sssom_rdf := by
  decide

/-- C8, as amended: the display subset takes the first
`limit_lines_displayed` rows in order, carrying the mapping set's
prefix map and metadata (the prefix map then cleaned); the JSON and
Markdown renderings use that subset — so the six-row bundled example
yields a five-row subset — while the Turtle rendering receives the
full mapping set; the bundled example text itself has six data rows
(seven non-comment lines including the header). -/
theorem display_subset_spec (lib : ExtLib) (v : SSSOMValidation) (m : MSDF)
    (h : v.msdf = some m) (hlim : v.limit_lines_displayed = 5)
    (hlen : m.df.length = 6) :
    (display_subset lib m v.limit_lines_displayed).df = m.df.take 5 ∧
    (display_subset lib m v.limit_lines_displayed).df.length = 5 ∧
    (display_subset lib m v.limit_lines_displayed).metadata = m.metadata ∧
    (display_subset lib m v.limit_lines_displayed).converter =
      lib.clean_prefix_map
        { df := m.df.take 5, converter := m.converter, metadata := m.metadata } ∧
    (∃ w, (_run_sssom_conversion lib v).1 = Except.ok w ∧
      w.sssom_markdown =
        lib.to_markdown (display_subset lib m v.limit_lines_displayed).df ∧
      w.sssom_json = lib.to_json (display_subset lib m v.limit_lines_displayed)) ∧
    (pyTruthyGet m.metadata "extension_definitions" = false →
      ∀ w, (_run_sssom_conversion lib v).1 = Except.ok w →
        w.sssom_rdf = lib.to_rdf_turtle m) ∧
    ((pySplitlines generate_example).filter (fun l => !(pyStartsWith l "#"))).length
      = 7 := by
  refine ⟨?_, ?_, rfl, ?_, ?_, ?_, by decide⟩
  · rw [hlim]
    rfl
  · rw [hlim]
    simp [display_subset, List.length_take, hlen]
  · rw [hlim]
    rfl
  · simp only [_run_sssom_conversion, h]
    split
    · exact ⟨_, rfl, rfl, rfl⟩
    · exact ⟨_, rfl, rfl, rfl⟩
  · intro hf w hw
    simp only [_run_sssom_conversion, h, hf, Bool.false_eq_true, if_false] at hw
    injection hw with hw2
    exact hw2 ▸ rfl

/-- Witness for C8's amended statement on the six-row set `mA`. -/
theorem display_subset_spec_witness :
    mA.df.length = 6 ∧
    (display_subset probeLib mA 5).df.length = 5 ∧
    (display_subset probeLib mA 5).metadata = mA.metadata :=
  ⟨by decide,
   (display_subset_spec probeLib vA mA rfl rfl (by decide)).2.1,
   (display_subset_spec probeLib vA mA rfl rfl (by decide)).2.2.1⟩

end SSSOMValidateUI
